import Mathlib

/-!
Verification of the listing intake / estimation / partner-matching backend
(`backend/main.py` of the smart-circular-ewaste-platform repository).

Conventions of the shallow embedding:

* Python floats are modelled as exact rationals (`ℚ`); Python ints as `ℤ`/`ℕ`.
  `int(x)` is `pyTrunc` (truncation toward zero), `round(x, -1)` is
  `pyRound10` (nearest multiple of ten, ties to even), `round(x, 2)` is
  `pyRound2` (nearest hundredth, ties to even).
* Python `x or default` applied to an optional number is `orQ` (both `None`
  and `0` are falsy and give the default).
* `str.lower()` is `pyLower`, `str.strip()` is `pyStrip`.
* Fallible external calls (the YOLO vision model, the joblib tabular models,
  the cryptographic hash functions) are modelled as explicit parameters: an
  `Except` value stands for "the call returned normally / raised", and a
  hash is an arbitrary function argument, since the code relies only on the
  hash being a deterministic function of its input.
* Each endpoint's database interaction is modelled on the slice of state the
  endpoint reads and writes (a `List` of rows, or the single row the
  endpoint looks up, `none` standing for "no row with that id").
-/

/-- Python `int(x)` on a float: truncation toward zero. -/
def pyTrunc (x : ℚ) : ℤ :=
  if 0 ≤ x then ⌊x⌋ else ⌈x⌉

/-- Round to the nearest integer, ties to even — the rounding used by
Python's builtin `round`. -/
def roundHalfEven (x : ℚ) : ℤ :=
  if x - ⌊x⌋ < 1/2 then ⌊x⌋
  else if 1/2 < x - ⌊x⌋ then ⌊x⌋ + 1
  else if ⌊x⌋ % 2 = 0 then ⌊x⌋ else ⌊x⌋ + 1

/-- Python `round(x, -1)`: nearest multiple of ten. -/
def pyRound10 (x : ℚ) : ℤ :=
  10 * roundHalfEven (x / 10)

/-- Python `round(x, 2)`: nearest hundredth. -/
def pyRound2 (x : ℚ) : ℚ :=
  (roundHalfEven (x * 100) : ℚ) / 100

/-- Python `value or default` for an optional number: `None` and `0` are
falsy and produce the default. -/
def orQ (x : Option ℚ) (d : ℚ) : ℚ :=
  match x with
  | none => d
  | some v => if v = 0 then d else v

/-- Python `str.lower()` (ASCII case folding suffices for this code base). -/
def pyLower (s : String) : String :=
  ⟨s.data.map Char.toLower⟩

/-- Python `str.strip()`: drop leading and trailing whitespace. -/
def pyStrip (s : String) : String :=
  ⟨(((s.data.dropWhile Char.isWhitespace).reverse).dropWhile Char.isWhitespace).reverse⟩

theorem roundHalfEven_ge (x : ℚ) : x - 1/2 ≤ (roundHalfEven x : ℚ) := by
  unfold roundHalfEven
  have h1 : (⌊x⌋ : ℚ) ≤ x := Int.floor_le x
  have h2 : x < (⌊x⌋ : ℚ) + 1 := Int.lt_floor_add_one x
  split
  · linarith
  · split
    · push_cast; linarith
    · split <;> push_cast <;> linarith

theorem roundHalfEven_le (x : ℚ) : (roundHalfEven x : ℚ) ≤ x + 1/2 := by
  unfold roundHalfEven
  have h1 : (⌊x⌋ : ℚ) ≤ x := Int.floor_le x
  have h2 : x < (⌊x⌋ : ℚ) + 1 := Int.lt_floor_add_one x
  split
  · linarith
  · split
    · push_cast; linarith
    · split <;> push_cast <;> linarith

theorem pyRound10_ge (x : ℚ) : x - 5 ≤ (pyRound10 x : ℚ) := by
  unfold pyRound10
  have h := roundHalfEven_ge (x / 10)
  push_cast
  linarith

theorem pyTrunc_le_of_nonneg {x : ℚ} (h : 0 ≤ x) : (pyTrunc x : ℚ) ≤ x := by
  unfold pyTrunc
  rw [if_pos h]
  exact Int.floor_le x

theorem pyTrunc_nonpos {x : ℚ} (h : x ≤ 0) : pyTrunc x ≤ 0 := by
  unfold pyTrunc
  split
  · have hx : x = 0 := le_antisymm h (by assumption)
    simp [hx]
  · rw [Int.ceil_le]
    exact_mod_cast h

theorem roundHalfEven_intCast (n : ℤ) : roundHalfEven (n : ℚ) = n := by
  unfold roundHalfEven
  rw [Int.floor_intCast]
  norm_num

theorem pyTrunc_intCast (n : ℤ) : pyTrunc (n : ℚ) = n := by
  unfold pyTrunc
  split
  · exact Int.floor_intCast n
  · exact Int.ceil_intCast n

theorem pyTrunc_eval {x : ℚ} {n : ℤ} (h0 : 0 ≤ x) (h1 : (n : ℚ) ≤ x)
    (h2 : x < (n : ℚ) + 1) : pyTrunc x = n := by
  unfold pyTrunc
  rw [if_pos h0, Int.floor_eq_iff]
  exact ⟨h1, h2⟩

theorem pyRound10_eval {x : ℚ} {n : ℤ} (h : x = ((10 * n : ℤ) : ℚ)) :
    pyRound10 x = 10 * n := by
  unfold pyRound10
  rw [h]
  rw [show (((10 * n : ℤ) : ℚ) / 10) = ((n : ℤ) : ℚ) by push_cast; ring]
  rw [roundHalfEven_intCast]

theorem pyRound2_eval {x : ℚ} {m : ℤ} (h : x * 100 = ((m : ℤ) : ℚ)) :
    pyRound2 x = (m : ℚ) / 100 := by
  unfold pyRound2
  rw [h, roundHalfEven_intCast]

theorem orQ_none (d : ℚ) : orQ none d = d := rfl

theorem orQ_some {v d : ℚ} (h : v ≠ 0) : orQ (some v) d = v := by
  simp [orQ, h]

/-!
Estimation pipeline (`backend/main.py`, `ml_predict` lines 359-687 and the
estimation section of `create_listing`, lines 1576-1797).
-/

/-- The specs payload assembled by `create_listing` (lines 1545-1562) after
form coercion: `safe_int` with default `0` makes the three issue counters
always-present integers, the remaining numeric fields stay optional. -/
structure Payload where
  category : String
  brand : String
  model : String
  age_months : Option ℚ
  original_price : Option ℚ
  defect_count : ℤ
  battery_health : Option ℚ
  storage_gb : Option ℤ
  ram_gb : Option ℤ
  screen_issues : ℤ
  body_issues : ℤ
  accessories : String
  city : String
  lat : Option ℚ
  lon : Option ℚ
  intent : String
deriving DecidableEq

/-- One YOLO detection as stored by `create_listing` (lines 1659-1665). -/
structure Detection where
  label : String
  confidence : ℚ
  bbox : ℚ × ℚ × ℚ × ℚ
deriving DecidableEq

/-- A successful run of the YOLO block: the detection list it accumulated
and the loaded model's file name. -/
structure VisionOk where
  detections : List Detection
  model_name : String
deriving DecidableEq

/-- Outcome of the vision tier (lines 1581-1670): `none` when no YOLO model
is loaded (the block is skipped), `some (.error e)` when the model raised
(the handler resets `detections = []` and `model_used = None`, discarding
any partial list), `some (.ok v)` on success. -/
def runVision : Option (Except String VisionOk) → List Detection × Option String
  | none => ([], none)
  | some (.error _) => ([], none)
  | some (.ok v) => (v.detections, some v.model_name)

/-- Output of the external tabular models inside `ml_predict` after the
numeric unscaling of lines 618-626: the integer rupee price
`int(round(exp(raw) * 100))` (a natural number, since `exp` is positive)
and the decision class. The joblib model invocation and the transcendental
`exp` unscaling are modelled as this oracle value; any natural-number
price is realizable by a suitable raw model output. -/
structure MLRawOut where
  price_rupees : ℕ
  decision_cls : ℤ
deriving DecidableEq

/-- The dictionary returned by `ml_predict` on success (lines 676-680). -/
structure MLOut where
  price_suggest : ℤ
  decision : String
  co2_saved_kg : ℚ
deriving DecidableEq

/-- Embedding of `ml_predict` (lines 359-687). `run` is the outcome of the
external model invocation: `none` when one of the three model globals is
unloaded (line 364-365), `some (.error e)` when the invocation raised — the
enclosing handlers (lines 681-687) return `None` — and `some (.ok o)` on
success, in which case the function builds the result dictionary of lines
641-680. -/
def ml_predict (p : Payload) (run : Option (Except String MLRawOut)) : Option MLOut :=
  match run with
  | none => none
  | some (.error _) => none
  | some (.ok o) =>
    let original_price := orQ p.original_price 20000
    some { price_suggest := (o.price_rupees : ℤ)
           decision := if o.decision_cls = 1 then "sell" else "recycle"
           co2_saved_kg := pyRound2 (((o.price_rupees : ℚ) / max 1 original_price) * 40) }

/-- Line 1688/1756: a detection counts as a defect unless its lower-cased
label is one of "mobile", "phone", "device". -/
def isDefectDet (d : Detection) : Bool :=
  !(pyLower d.label == "mobile" || pyLower d.label == "phone" || pyLower d.label == "device")

/-- Lines 1690/1760: mean confidence of the defect detections, with the
`max(1, len(...))` guard against an empty list. -/
def severityOf (dets : List Detection) : ℚ :=
  (dets.map (fun d => d.confidence)).sum / ((max 1 dets.length : ℕ) : ℚ)

/-- Condition label and confidence from the user-supplied issue counters
(lines 1699-1711). -/
def conditionFromForm (p : Payload) : String × ℚ :=
  if p.defect_count = 0 ∧ p.screen_issues = 0 ∧ p.body_issues = 0 then ("Good", 0.85)
  else if p.defect_count ≤ 1 ∧ p.screen_issues + p.body_issues ≤ 1 then ("Fair", 0.7)
  else ("Poor", 0.6)

/-- Condition determination inside the ML branch (lines 1678-1711).
`ml_predict` never returns an `image_condition` key, so the first arm of
the Python `if` (line 1682) is dead and the choice is between the
detection-derived label and the form-field fallback. -/
def conditionForML (p : Payload) (dets : List Detection) : String × ℚ :=
  let defectDets := dets.filter isDefectDet
  if defectDets.isEmpty then conditionFromForm p
  else
    let severity := severityOf defectDets
    if severity < 0.4 then ("Fair", pyRound2 (0.6 + severity * 0.5))
    else ("Poor", pyRound2 (0.4 + min 0.5 severity))

/-- The per-category base life of line 1714, with default 60, looked up on
the lower-cased category. -/
def categoryBaseLife (category : String) : ℤ :=
  if pyLower category = "mobile" then 48
  else if pyLower category = "laptop" then 72
  else if pyLower category = "tablet" then 60
  else if pyLower category = "tv" then 84
  else 60

/-- The predictions dictionary of the estimation result. -/
structure Predictions where
  price_suggest : ℤ
  rul_months : ℤ
  decision : String
  co2_saved_kg : ℚ
deriving DecidableEq

/-- The estimation result assembled by `create_listing` (method tier,
detections, condition, predictions). The `inference_ms` timing field and
the static `price_explanation` strings are omitted: no claim concerns
them. -/
structure EstResult where
  method : String
  model_name : Option String
  detections : List Detection
  condition_label : String
  condition_confidence : ℚ
  predictions : Predictions
deriving DecidableEq

/-- The ML branch of `create_listing` (lines 1677-1751): condition from
detections or form fields, category-based RUL, and the price floor of
lines 1719-1730 — `max(int(original_price * 0.05), 100)`, applied as the
result when the model price is non-positive and as a lower bound
otherwise. The result's `model_name` is the literal "RandomForest"
(line 1738). -/
def mlBranch (p : Payload) (dets : List Detection) (mlOut : MLOut) : EstResult :=
  let cond := conditionForML p dets
  let rul_months := max 1 (pyTrunc ((categoryBaseLife p.category : ℚ) - orQ p.age_months 24))
  let original_price := orQ p.original_price 20000
  let min_price : ℤ := max (pyTrunc (original_price * 0.05)) 100
  let price : ℤ := if mlOut.price_suggest ≤ 0 then min_price else max mlOut.price_suggest min_price
  { method := "ml_model"
    model_name := some "RandomForest"
    detections := dets
    condition_label := cond.1
    condition_confidence := cond.2
    predictions :=
      { price_suggest := price
        rul_months := rul_months
        decision := mlOut.decision
        co2_saved_kg := mlOut.co2_saved_kg } }

/-- The vision rule-based branch of `create_listing` (lines 1753-1780),
taken when the ML tier is absent but YOLO produced detections. -/
def visionBranch (p : Payload) (dets : List Detection) (modelUsed : Option String) : EstResult :=
  let severity := severityOf (dets.filter isDefectDet)
  let age := orQ p.age_months 24
  let original_price := orQ p.original_price 20000
  let degrade := min 0.9 (0.2 + severity * 0.6)
  let price : ℤ := max 500 (pyRound10 (original_price * (1 - degrade)))
  let rul : ℤ := max 1 (pyTrunc (48 - age - severity * 18))
  { method := "vision_rule_based"
    model_name := modelUsed
    detections := dets
    condition_label := "Fair"
    condition_confidence := 0.75
    predictions :=
      { price_suggest := price
        rul_months := rul
        decision := if 6 < rul then "repair" else "recycle"
        co2_saved_kg := pyRound2 (((price : ℚ) / original_price) * 40) } }

/-- The specs rule-based fallback branch of `create_listing`
(lines 1782-1797), taken when the ML tier is absent and there are no
detections. Note the CO2 estimate divides by the literal 20000. -/
def specsBranch (p : Payload) : EstResult :=
  let price : ℤ := max 500 (pyRound10 (orQ p.original_price 20000 * 0.4))
  { method := "specs_rule_based"
    model_name := none
    detections := []
    condition_label := "Fair"
    condition_confidence := 0.7
    predictions :=
      { price_suggest := price
        rul_months := 24
        decision := "recycle"
        co2_saved_kg := pyRound2 (((price : ℚ) / 20000) * 40) } }

/-- The whole estimation step of `create_listing` (lines 1576-1797): run
the vision tier with its failure handler, run `ml_predict`, then pick the
first available tier — ML branch, vision rule-based branch, specs
fallback. -/
def estimationStep (p : Payload) (vision : Option (Except String VisionOk))
    (mlRun : Option (Except String MLRawOut)) : EstResult :=
  let v := runVision vision
  match ml_predict p mlRun with
  | some mlOut => mlBranch p v.1 mlOut
  | none => if v.1.isEmpty then specsBranch p else visionBranch p v.1 v.2

/-- The output record of the `demo_predictions` helper. -/
structure DemoOut where
  condition_label : String
  condition_confidence : ℚ
  price_suggest : ℤ
  rul_months : ℤ
  decision : String
  co2_saved_kg : ℚ
deriving DecidableEq

/-- Embedding of the `demo_predictions` helper (lines 961-996). The
comment above it in the source notes it is kept only as a helper; the
estimation step of `create_listing` does not call it. -/
def demo_predictions (p : Payload) : DemoOut :=
  let age := orQ p.age_months 24
  let orig_price := orQ p.original_price 20000
  let battery := orQ p.battery_health 80
  let defects : ℚ := (p.defect_count : ℚ)
  let s_issues : ℚ := (p.screen_issues : ℚ)
  let b_issues : ℚ := (p.body_issues : ℚ)
  let wear := 0.03 * age + 0.5 * s_issues + 0.3 * b_issues + 0.7 * defects
    + max 0 ((90 - battery) * 0.02)
  let price : ℤ := max 500 (pyRound10 (orig_price * (1 - min 0.85 (wear / 10))))
  let rul : ℤ := max 1 (pyTrunc (48 - age - defects * 4 - s_issues * 6 - b_issues * 4))
  let decision :=
    if 10 ≤ rul ∧ orig_price * 0.25 ≤ (price : ℚ) then "repair"
    else if orig_price * 0.15 ≤ (price : ℚ) then "resell" else "recycle"
  let cond :=
    if defects = 0 ∧ s_issues = 0 ∧ b_issues = 0 then ("Good", (0.85 : ℚ))
    else if defects ≤ 1 ∧ s_issues + b_issues ≤ 1 then ("Fair", (0.7 : ℚ))
    else ("Poor", (0.6 : ℚ))
  { condition_label := cond.1
    condition_confidence := cond.2
    price_suggest := price
    rul_months := rul
    decision := decision
    co2_saved_kg := pyRound2 (((price : ℚ) / max 1 orig_price) * 40) }

/-!
Deduplication guard (`create_listing`, lines 1512-1574 and the row insert
of lines 1809-1821).
-/

/-- The slice of a `listings` row that the deduplication guard reads and
writes: primary key, owning user, and the stored dedupe key. -/
structure ListingRow where
  id : ℕ
  user_id : ℕ
  dedupe_key : String
deriving DecidableEq

/-- The dedupe key of lines 1564-1566:
`sha256(f"user.id|brand.strip().lower()|model.strip().lower()|image_md5")`.
`sha256hex` is the hash function, passed as a parameter. -/
def dedupe_key_of (sha256hex : String → String) (userId : ℕ) (brand model md5hex : String) : String :=
  sha256hex (toString userId ++ "|" ++ pyLower (pyStrip brand) ++ "|"
    ++ pyLower (pyStrip model) ++ "|" ++ md5hex)

/-- The deduplication and insert behaviour of `create_listing`: reject an
empty upload (line 1513-1514), compute the dedupe key, return Conflict 409
when the submitting user already has a row with this key (lines 1568-1574
— note the query is filtered on `Listing.user_id == user.id`), otherwise
append the new row (lines 1809-1821) and return the new row id. `md5hex`
is the content hash of lines 1515, passed as a parameter. The estimation
part of the endpoint is modelled separately as `estimationStep`; it cannot
fail and does not touch the rows, so it commutes with this slice. -/
def create_listing_dedupe (sha256hex : String → String) (md5hex : List ℕ → String)
    (userId : ℕ) (brand model : String) (imageBytes : List ℕ)
    (rows : List ListingRow) (nextId : ℕ) : Except ℕ (List ListingRow × ℕ) :=
  if imageBytes.isEmpty then .error 400
  else
    let key := dedupe_key_of sha256hex userId brand model (md5hex imageBytes)
    match rows.find? (fun r => r.user_id == userId && r.dedupe_key == key) with
    | some _ => .error 409
    | none => .ok (rows ++ [⟨nextId, userId, key⟩], nextId)

/-!
Geospatial matcher (`haversine_km` lines 1030-1040 and
`get_nearby_partners` lines 1043-1099).
-/

/-- A `partners` row (lines 168-181) as read by `get_nearby_partners`. -/
structure Partner where
  id : ℕ
  org_name : String
  partner_type : String
  city : Option String
  lat : Option ℚ
  lon : Option ℚ
  service_radius_km : Option ℚ
  contact_phone : Option String
  kyc_status : String
deriving DecidableEq

/-- One entry of the list returned by `get_nearby_partners`
(lines 1061-1072 / 1084-1096). -/
structure PartnerOut where
  id : ℕ
  name : String
  ptype : String
  city : Option String
  lat : Option ℚ
  lon : Option ℚ
  distance_km : Option ℚ
  contact_phone : Option String
deriving DecidableEq

/-- Intent filter of lines 1052-1054: repair intent keeps repair partners,
recycle intent keeps recyclers, anything else keeps all. -/
def filterByIntent (intent : Option String) (partners : List Partner) : List Partner :=
  match intent with
  | some "repair" => partners.filter (fun p => p.partner_type == "repair")
  | some "recycle" => partners.filter (fun p => p.partner_type == "recycler")
  | _ => partners

/-- The entry built in the no-coordinates branch (lines 1059-1073):
distance `None` and — unlike the coordinates branch — the stored
`contact_phone`, with no KYC redaction. -/
def entryNoGeo (p : Partner) : PartnerOut :=
  ⟨p.id, p.org_name, p.partner_type, p.city, p.lat, p.lon, none, p.contact_phone⟩

/-- Distance of a partner from the query point (lines 1076-1079): `none`
when the partner's coordinates are missing, otherwise `haversine_km`
applied to the two points. The haversine function itself is transcendental
float arithmetic, so it is passed as the parameter `hav`. -/
def distOf (hav : ℚ → ℚ → ℚ → ℚ → ℚ) (la lo : ℚ) (p : Partner) : Option ℚ :=
  match p.lat, p.lon with
  | some plat, some plon => some (hav la lo plat plon)
  | _, _ => none

/-- The entry built in the coordinates branch (lines 1084-1096):
`contact_phone` only if the partner's `kyc_status` is verified. -/
def entryGeo (hav : ℚ → ℚ → ℚ → ℚ → ℚ) (la lo : ℚ) (p : Partner) : PartnerOut :=
  ⟨p.id, p.org_name, p.partner_type, p.city, p.lat, p.lon, distOf hav la lo p,
    if p.kyc_status = "verified" then p.contact_phone else none⟩

/-- Candidate entries of the coordinates branch, in query order: a partner
is skipped only when both its distance and its own service radius are
known and the distance strictly exceeds the radius (line 1081). -/
def nearbyEntries (hav : ℚ → ℚ → ℚ → ℚ → ℚ) (la lo : ℚ) (partners : List Partner) :
    List PartnerOut :=
  partners.filterMap (fun p =>
    match distOf hav la lo p, p.service_radius_km with
    | some d, some r => if r < d then none else some (entryGeo hav la lo p)
    | _, _ => some (entryGeo hav la lo p))

/-- The Python sort key of line 1098: `(distance_km is None, distance_km or 0.0)`. -/
def sortKey (e : PartnerOut) : Bool × ℚ :=
  (e.distance_km.isNone, e.distance_km.getD 0)

/-- Boolean comparator for the lexicographic order on `sortKey`
(`False < True` on the first component). Python's `list.sort` is a stable
sort by this key; the embedding uses `List.mergeSort`, which is also
stable. -/
def keyLe (a b : PartnerOut) : Bool :=
  (!(sortKey a).1 && (sortKey b).1)
    || ((sortKey a).1 == (sortKey b).1 && decide ((sortKey a).2 ≤ (sortKey b).2))

/-- Embedding of `get_nearby_partners` (lines 1043-1099): intent filter,
then either the unranked no-coordinates listing or the
radius-filtered, distance-sorted ranking, truncated to `max_results`. -/
def get_nearby_partners (hav : ℚ → ℚ → ℚ → ℚ → ℚ) (partners : List Partner)
    (lat lon : Option ℚ) (intent : Option String) (max_results : ℕ) : List PartnerOut :=
  let qs := filterByIntent intent partners
  match lat, lon with
  | some la, some lo => ((nearbyEntries hav la lo qs).mergeSort keyLe).take max_results
  | _, _ => (qs.map entryNoGeo).take max_results

/-!
Listing lifecycle (`partner_accept_lead` lines 1416-1433,
`partner_reject_lead` lines 1436-1456, `partner_complete_lead`
lines 1459-1483, `admin_hide_listing` lines 2008-2020,
`admin_restore_listing` lines 2023-2035).
-/

/-- The lifecycle slice of a `listings` row. -/
structure ListingLC where
  status : String
  chosen_partner_id : Option ℕ
  outcome : Option String
  final_price : Option ℤ
  final_rul_months : Option ℤ
deriving DecidableEq

/-- Request body of the complete endpoint (`CompleteLeadIn`, lines 770-774). -/
structure CompleteLeadIn where
  outcome : String
  final_price : Option ℤ
  final_rul_months : Option ℤ
deriving DecidableEq

/-- Embedding of `partner_accept_lead` (lines 1416-1433). `partnerId` is
the id of the caller's partner record; the argument `l` is the looked-up
listing, `none` when no row has the requested id. The only guard is
status `completed`; on success the status becomes `in_progress` and the
listing is assigned to the caller. -/
def partner_accept_lead (partnerId : ℕ) (l : Option ListingLC) : Except ℕ ListingLC :=
  match l with
  | none => .error 404
  | some l =>
    if l.status = "completed" then .error 400
    else .ok { l with status := "in_progress", chosen_partner_id := some partnerId }

/-- Embedding of `partner_reject_lead` (lines 1436-1456): guarded by
status `completed` and by ownership (`chosen_partner_id` must be unset or
the caller); on success the status reverts to `created` and the
assignment is cleared. -/
def partner_reject_lead (partnerId : ℕ) (l : Option ListingLC) : Except ℕ ListingLC :=
  match l with
  | none => .error 404
  | some l =>
    if l.status = "completed" then .error 400
    else if l.chosen_partner_id = none ∨ l.chosen_partner_id = some partnerId then
      .ok { l with status := "created", chosen_partner_id := none }
    else .error 403

/-- Embedding of `partner_complete_lead` (lines 1459-1483): no status
guard at all — only existence and ownership; on success the status becomes
`completed`, the listing is assigned to the caller, the outcome is stored
lower-cased and stripped, and the optional final price / RUL overrides are
applied. -/
def partner_complete_lead (partnerId : ℕ) (body : CompleteLeadIn) (l : Option ListingLC) :
    Except ℕ ListingLC :=
  match l with
  | none => .error 404
  | some l =>
    if l.chosen_partner_id = none ∨ l.chosen_partner_id = some partnerId then
      .ok { l with
        status := "completed"
        chosen_partner_id := some partnerId
        outcome := some (pyStrip (pyLower body.outcome))
        final_price := match body.final_price with
          | some v => some v
          | none => l.final_price
        final_rul_months := match body.final_rul_months with
          | some v => some v
          | none => l.final_rul_months }
    else .error 403

/-- Embedding of `admin_hide_listing` (lines 2008-2020): unconditionally
sets the status to `hidden`. -/
def admin_hide_listing (l : Option ListingLC) : Except ℕ ListingLC :=
  match l with
  | none => .error 404
  | some l => .ok { l with status := "hidden" }

/-- Embedding of `admin_restore_listing` (lines 2023-2035):
unconditionally sets the status to `created` — it does not remember the
pre-hide status. -/
def admin_restore_listing (l : Option ListingLC) : Except ℕ ListingLC :=
  match l with
  | none => .error 404
  | some l => .ok { l with status := "created" }

/-!
Claim C5 — accept by a second partner.
-/

/-- C5 counterexample: with lead L held by partner 1 (status
`in_progress`, `chosen_partner_id = 1`), an accept attempt by partner 2
does not fail — it succeeds and reassigns the lead to partner 2,
contradicting the claim that it must fail and leave the assignment at
partner 1. -/
theorem accept_steal_counterexample :
    partner_accept_lead 2 (some ⟨"in_progress", some 1, none, none, none⟩)
      = .ok ⟨"in_progress", some 2, none, none, none⟩ ∧
    ¬ ∃ c, partner_accept_lead 2 (some ⟨"in_progress", some 1, none, none, none⟩)
      = .error c := by
  constructor
  · rfl
  · rintro ⟨c, h⟩
    simp [partner_accept_lead] at h

/-- C5 amended: after partner A accepts lead L (status becomes
`in_progress`, `chosen_partner_id` becomes A), an accept attempt by any
partner B also succeeds — `partner_accept_lead` has no ownership guard,
only the `completed`-status guard — and reassigns `chosen_partner_id` to
B. -/
theorem accept_has_no_ownership_guard (l : ListingLC) (pidA pidB : ℕ)
    (h : l.status ≠ "completed") :
    partner_accept_lead pidA (some l)
      = .ok { l with status := "in_progress", chosen_partner_id := some pidA } ∧
    partner_accept_lead pidB
        (some { l with status := "in_progress", chosen_partner_id := some pidA })
      = .ok { l with status := "in_progress", chosen_partner_id := some pidB } := by
  constructor
  · simp [partner_accept_lead, h]
  · simp [partner_accept_lead]

/-- C5 amended, witnessed at a concrete lead. -/
theorem accept_has_no_ownership_guard_witness :
    partner_accept_lead 1 (some ⟨"created", none, none, none, none⟩)
      = .ok ⟨"in_progress", some 1, none, none, none⟩ ∧
    partner_accept_lead 2 (some ⟨"in_progress", some 1, none, none, none⟩)
      = .ok ⟨"in_progress", some 2, none, none, none⟩ :=
  accept_has_no_ownership_guard ⟨"created", none, none, none, none⟩ 1 2 (by decide)

/-!
Claim C8 — lifecycle guards around the completed state.
-/

/-- C8: an accept on a completed listing fails with 400; a successful
reject always clears `chosen_partner_id` and reverts the status to
`created`; and a reject on a completed listing also fails with 400, so a
completed listing is immutable to both accept and reject. -/
theorem completed_lifecycle_guards :
    (∀ (pid : ℕ) (l : ListingLC), l.status = "completed" →
      partner_accept_lead pid (some l) = .error 400) ∧
    (∀ (pid : ℕ) (l l' : ListingLC), partner_reject_lead pid (some l) = .ok l' →
      l'.chosen_partner_id = none ∧ l'.status = "created") ∧
    (∀ (pid : ℕ) (l : ListingLC), l.status = "completed" →
      partner_reject_lead pid (some l) = .error 400) := by
  refine ⟨?_, ?_, ?_⟩
  · intro pid l h
    simp [partner_accept_lead, h]
  · intro pid l l' h
    by_cases hc : l.status = "completed"
    · simp [partner_reject_lead, hc] at h
    · by_cases ho : l.chosen_partner_id = none ∨ l.chosen_partner_id = some pid
      · simp [partner_reject_lead, hc, ho] at h
        subst h
        exact ⟨rfl, rfl⟩
      · simp [partner_reject_lead, hc, ho] at h
  · intro pid l h
    simp [partner_reject_lead, h]

/-- C8, witnessed at concrete listings. -/
theorem completed_lifecycle_guards_witness :
    partner_accept_lead 3 (some ⟨"completed", some 1, some "sold", none, none⟩)
      = .error 400 ∧
    ((⟨"created", none, none, none, none⟩ : ListingLC).chosen_partner_id = none ∧
      (⟨"created", none, none, none, none⟩ : ListingLC).status = "created") ∧
    partner_reject_lead 3 (some ⟨"completed", some 1, some "sold", none, none⟩)
      = .error 400 :=
  ⟨completed_lifecycle_guards.1 3 ⟨"completed", some 1, some "sold", none, none⟩ rfl,
   completed_lifecycle_guards.2.1 4 ⟨"in_progress", some 4, none, none, none⟩
     ⟨"created", none, none, none, none⟩ rfl,
   completed_lifecycle_guards.2.2 3 ⟨"completed", some 1, some "sold", none, none⟩ rfl⟩

/-!
Claim C9 — admin hide / restore.
-/

/-- C9 counterexample: a listing in the partner-driven state
`in_progress` (assigned to partner 5) that an admin hides and then
restores comes back with status `created`, not `in_progress` — the
restore endpoint does not remember the pre-hide status, contradicting
the claim that hide/restore leaves the business-progress status as it
was. -/
theorem hide_restore_counterexample :
    admin_hide_listing (some ⟨"in_progress", some 5, none, none, none⟩)
      = .ok ⟨"hidden", some 5, none, none, none⟩ ∧
    admin_restore_listing (some ⟨"hidden", some 5, none, none, none⟩)
      = .ok ⟨"created", some 5, none, none, none⟩ ∧
    ("created" : String) ≠ "in_progress" := by
  refine ⟨rfl, rfl, by decide⟩

/-- C9 amended: admin hide followed by admin restore preserves the chosen
partner assignment, the outcome, and the final price/RUL fields, but
always sets the status to `created` — the pre-hide lifecycle status is
preserved only when it was `created` itself. -/
theorem hide_restore_frame (l : ListingLC) :
    admin_hide_listing (some l) = .ok { l with status := "hidden" } ∧
    admin_restore_listing (some { l with status := "hidden" })
      = .ok { l with status := "created" } :=
  ⟨rfl, rfl⟩

/-!
Claim C10 — the complete endpoint has no status precondition.
-/

/-- C10: `partner_complete_lead` checks only existence (404) and
ownership (403): for every listing whose `chosen_partner_id` is unset or
equal to the caller, completion succeeds whatever the current status —
including `created`, `shared_with_partner`, `hidden`, `removed`, or
`completed` — setting the status to `completed` and assigning the caller. -/
theorem complete_without_status_guard :
    (∀ (pid : ℕ) (body : CompleteLeadIn),
      partner_complete_lead pid body none = .error 404) ∧
    (∀ (pid : ℕ) (body : CompleteLeadIn) (l : ListingLC),
      l.chosen_partner_id = none ∨ l.chosen_partner_id = some pid →
      partner_complete_lead pid body (some l)
        = .ok { l with
            status := "completed"
            chosen_partner_id := some pid
            outcome := some (pyStrip (pyLower body.outcome))
            final_price := match body.final_price with
              | some v => some v
              | none => l.final_price
            final_rul_months := match body.final_rul_months with
              | some v => some v
              | none => l.final_rul_months }) ∧
    (∀ (pid q : ℕ) (body : CompleteLeadIn) (l : ListingLC),
      l.chosen_partner_id = some q → q ≠ pid →
      partner_complete_lead pid body (some l) = .error 403) := by
  refine ⟨?_, ?_, ?_⟩
  · intro pid body
    rfl
  · intro pid body l h
    simp [partner_complete_lead, h]
  · intro pid q body l h hq
    simp [partner_complete_lead, h, hq]

/-- C10, witnessed on a hidden listing with no prior accept: completion
succeeds and stores the lower-cased stripped outcome and the final-price
override. -/
theorem complete_without_status_guard_witness :
    partner_complete_lead 7 ⟨"Repaired ", some 5, none⟩
        (some ⟨"hidden", none, none, none, some 3⟩)
      = .ok ⟨"completed", some 7, some "repaired", some 5, some 3⟩ :=
  complete_without_status_guard.2.1 7 ⟨"Repaired ", some 5, none⟩
    ⟨"hidden", none, none, none, some 3⟩ (Or.inl rfl)

/-!
Claim C1 — per-user deduplication.
-/

/-- C1: for a fixed brand, model and image, a user's first submission
succeeds and appends exactly one row; an identical resubmission by the
same user fails with Conflict 409 and returns no new row; and a
submission of the identical brand, model and image by a different user
is not rejected — the duplicate query is scoped to the submitting user
and the user id is part of the dedupe key, so the first user's row can
never match. The statement holds for every hash function, because the
code only needs the hash to be deterministic. -/
theorem dedupe_scoped_per_user (sha256hex : String → String) (md5hex : List ℕ → String)
    (uid uid2 : ℕ) (brand model : String) (imageBytes : List ℕ)
    (rows : List ListingRow) (nid nid2 nid3 : ℕ)
    (hbytes : imageBytes ≠ [])
    (hfresh : ∀ r ∈ rows, ¬(r.user_id = uid ∧
      r.dedupe_key = dedupe_key_of sha256hex uid brand model (md5hex imageBytes))) :
    create_listing_dedupe sha256hex md5hex uid brand model imageBytes rows nid
      = .ok (rows ++ [⟨nid, uid, dedupe_key_of sha256hex uid brand model (md5hex imageBytes)⟩], nid) ∧
    create_listing_dedupe sha256hex md5hex uid brand model imageBytes
        (rows ++ [⟨nid, uid, dedupe_key_of sha256hex uid brand model (md5hex imageBytes)⟩]) nid2
      = .error 409 ∧
    (uid2 ≠ uid →
      (∀ r ∈ rows, ¬(r.user_id = uid2 ∧
        r.dedupe_key = dedupe_key_of sha256hex uid2 brand model (md5hex imageBytes))) →
      create_listing_dedupe sha256hex md5hex uid2 brand model imageBytes
          (rows ++ [⟨nid, uid, dedupe_key_of sha256hex uid brand model (md5hex imageBytes)⟩]) nid3
        = .ok (rows ++ [⟨nid, uid, dedupe_key_of sha256hex uid brand model (md5hex imageBytes)⟩]
            ++ [⟨nid3, uid2, dedupe_key_of sha256hex uid2 brand model (md5hex imageBytes)⟩], nid3)) := by
  have hne : ¬ imageBytes.isEmpty = true := by
    simp [List.isEmpty_iff, hbytes]
  have hnone : List.find? (fun r : ListingRow => r.user_id == uid &&
      r.dedupe_key == dedupe_key_of sha256hex uid brand model (md5hex imageBytes)) rows = none := by
    rw [List.find?_eq_none]
    intro r hr
    have := hfresh r hr
    simp only [Bool.and_eq_true, beq_iff_eq]
    tauto
  refine ⟨?_, ?_, ?_⟩
  · simp only [create_listing_dedupe, if_neg hne, hnone]
  · simp only [create_listing_dedupe, if_neg hne, List.find?_append, hnone]
    simp
  · intro hne2 hfresh2
    have h1 : List.find? (fun r : ListingRow => r.user_id == uid2 &&
        r.dedupe_key == dedupe_key_of sha256hex uid2 brand model (md5hex imageBytes)) rows = none := by
      rw [List.find?_eq_none]
      intro r hr
      have := hfresh2 r hr
      simp only [Bool.and_eq_true, beq_iff_eq]
      tauto
    simp only [create_listing_dedupe, if_neg hne, List.find?_append, h1]
    simp [Ne.symm hne2]

/-- C1, witnessed at concrete users 1 and 2 with a concrete (degenerate)
hash pair: user 1's resubmission is a 409 Conflict, user 2's submission
of the identical bytes succeeds. -/
theorem dedupe_scoped_per_user_witness :
    create_listing_dedupe (fun s => s) (fun _ => "h") 1 "" "" [0] [] 0
      = .ok ([⟨0, 1, dedupe_key_of (fun s => s) 1 "" "" "h"⟩], 0) ∧
    create_listing_dedupe (fun s => s) (fun _ => "h") 1 "" "" [0]
        [⟨0, 1, dedupe_key_of (fun s => s) 1 "" "" "h"⟩] 5 = .error 409 ∧
    create_listing_dedupe (fun s => s) (fun _ => "h") 2 "" "" [0]
        [⟨0, 1, dedupe_key_of (fun s => s) 1 "" "" "h"⟩] 6
      = .ok ([⟨0, 1, dedupe_key_of (fun s => s) 1 "" "" "h"⟩,
              ⟨6, 2, dedupe_key_of (fun s => s) 2 "" "" "h"⟩], 6) := by
  have h := dedupe_scoped_per_user (fun s => s) (fun _ => "h") 1 2 "" "" [0] [] 0 5 6
    (by decide) (by simp)
  exact ⟨h.1, h.2.1, h.2.2 (by decide) (by simp)⟩

/-!
Claim C2 — the estimation step is total.
-/

/-- C2 amended: on every payload whose numeric fields are finite (the
ℚ domain of this embedding), whatever the two optional tiers do —
absent, raising, or succeeding — the estimation step returns a result
from one of the three tiers, and a raising vision tier together with a
raising tabular tier is absorbed to exactly the same result as both
tiers being absent, after which the rule-based fallback answers. The
unrestricted claim is false: the fallback is not total on the full
float domain — `safe_float` accepts "inf", and an infinite original
price makes line 1784 raise an unhandled OverflowError, as the
counterexample over the `PyFloat` model below shows
(`specs_price_float_finite` shows the ℚ embedding and the float model
agree on every finite price). -/
theorem estimation_step_total :
    (∀ (p : Payload) (vision : Option (Except String VisionOk))
        (mlRun : Option (Except String MLRawOut)),
      (estimationStep p vision mlRun).method = "ml_model" ∨
      (estimationStep p vision mlRun).method = "vision_rule_based" ∨
      (estimationStep p vision mlRun).method = "specs_rule_based") ∧
    (∀ (p : Payload) (e e' : String),
      estimationStep p (some (.error e)) (some (.error e')) = estimationStep p none none) := by
  constructor
  · intro p vision mlRun
    unfold estimationStep
    cases h : ml_predict p mlRun with
    | some o =>
      simp [mlBranch]
    | none =>
      by_cases he : (runVision vision).1.isEmpty <;> simp [he, visionBranch, specsBranch]
  · intro p e e'
    rfl

/-!
Claim C3 — the price floor across tiers.
-/

/-- Both rule-based branches price at `max 500 (round10 (orig * f))` with
a factor `f ≥ 1/10`; such a price always dominates the ML branch's floor
`max 100 (trunc (orig * 0.05))`. -/
theorem rule_branch_dominates_floor (orig f : ℚ) (hf : 1/10 ≤ f) :
    max 100 (pyTrunc (orig * 0.05)) ≤ max 500 (pyRound10 (orig * f)) := by
  rcases le_or_lt (pyTrunc (orig * 0.05)) 500 with h | h
  · exact le_trans (max_le (by norm_num) h) (le_max_left _ _)
  · have horig : (0 : ℚ) < orig := by
      by_contra hno
      push_neg at hno
      have h05 : orig * 0.05 ≤ 0 := by nlinarith
      have := pyTrunc_nonpos h05
      omega
    have h05nn : (0 : ℚ) ≤ orig * 0.05 := by nlinarith
    have htr : (pyTrunc (orig * 0.05) : ℚ) ≤ orig * 0.05 := pyTrunc_le_of_nonneg h05nn
    have hbig : (500 : ℚ) < orig * 0.05 := by
      calc (500 : ℚ) < (pyTrunc (orig * 0.05) : ℚ) := by exact_mod_cast h
        _ ≤ orig * 0.05 := htr
    have hr10 : orig * f - 5 ≤ (pyRound10 (orig * f) : ℚ) := pyRound10_ge _
    have hmul : orig * (1/10) ≤ orig * f := by nlinarith
    have hQ : (pyTrunc (orig * 0.05) : ℚ) ≤ (pyRound10 (orig * f) : ℚ) := by nlinarith
    have hZ : pyTrunc (orig * 0.05) ≤ pyRound10 (orig * f) := by exact_mod_cast hQ
    exact max_le (le_trans (by norm_num) (le_max_left 500 _))
      (le_trans hZ (le_max_right _ _))

/-- C3 amended: whichever tier produced the result, the returned
`price_suggest` is at least `max(100, int(0.05 * original_price))` —
the integer truncation the code applies inside the ML branch's floor
(`min_price = max(int(orig_price * 0.05), 100)`, line 1724); the exact
bound `max(100, 0.05 * original_price)` of the original claim can be
missed by a fraction of a rupee. `original_price` is the payload's value
with the code's `or 20000` default. -/
theorem price_floor_every_tier (p : Payload) (vision : Option (Except String VisionOk))
    (mlRun : Option (Except String MLRawOut)) :
    max 100 (pyTrunc (orQ p.original_price 20000 * 0.05))
      ≤ (estimationStep p vision mlRun).predictions.price_suggest := by
  unfold estimationStep
  cases hm : ml_predict p mlRun with
  | some o =>
    simp only [mlBranch]
    rw [max_comm 100 (pyTrunc (orQ p.original_price 20000 * 0.05))]
    split
    · exact le_refl _
    · exact le_max_right _ _
  | none =>
    by_cases he : (runVision vision).1.isEmpty
    · simp only [he, if_true, specsBranch]
      exact rule_branch_dominates_floor _ 0.4 (by norm_num)
    · simp only [he, if_false, Bool.false_eq_true, visionBranch]
      refine rule_branch_dominates_floor _ _ ?_
      have hmin := min_le_left (0.9 : ℚ)
        (0.2 + severityOf (List.filter isDefectDet (runVision vision).1) * 0.6)
      linarith

/-- Concrete payload for the C3 counterexample: original price 20010. -/
def pricePayload : Payload :=
  { category := "mobile", brand := "", model := "", age_months := some 24
    original_price := some 20010, defect_count := 0, battery_health := some 80
    storage_gb := none, ram_gb := none, screen_issues := 0, body_issues := 0
    accessories := "", city := "", lat := none, lon := none, intent := "sell" }

/-- C3 counterexample: with original price 20010 and an ML tier that
predicts 1000 rupees, the code's floor is
`max(int(20010 * 0.05), 100) = 1000`, so the returned `price_suggest` is
1000 — strictly below the claimed bound
`max(100, 0.05 * 20010) = 1000.5`. -/
theorem price_floor_counterexample :
    ¬ ((max 100 (0.05 * 20010) : ℚ)
        ≤ ((estimationStep pricePayload none
            (some (.ok ⟨1000, 1⟩))).predictions.price_suggest : ℚ)) := by
  have horq : orQ pricePayload.original_price 20000 = 20010 := by
    simp only [pricePayload]
    exact orQ_some (by norm_num)
  have htr : pyTrunc (orQ pricePayload.original_price 20000 * 0.05) = 1000 := by
    rw [horq]
    exact pyTrunc_eval (by norm_num) (by norm_num) (by norm_num)
  have hp : (estimationStep pricePayload none
      (some (.ok ⟨1000, 1⟩))).predictions.price_suggest = 1000 := by
    simp only [estimationStep, runVision, ml_predict, mlBranch, htr]
    norm_num
  rw [hp]
  norm_num

/-!
Claim C6 — the concrete no-model scenario.
-/

/-- Concrete payload of the spec's scenario: mobile, 24 months old,
original price 20000, battery health 80, no reported issues. -/
def scenarioPayload : Payload :=
  { category := "mobile", brand := "", model := "", age_months := some 24
    original_price := some 20000, defect_count := 0, battery_health := some 80
    storage_gb := none, ram_gb := none, screen_issues := 0, body_issues := 0
    accessories := "", city := "", lat := none, lon := none, intent := "sell" }

/-- C6 counterexample: with no vision model and no tabular model loaded,
the pipeline takes the specs fallback branch, whose price for this
payload is `max(500, round(20000 * 0.4, -1)) = 8000` with condition
"Fair" and decision "recycle" — not the claimed 18560 / "Good" /
"repair" (the claimed numbers correspond to the unused
`demo_predictions` helper, and even that helper yields a different wear,
0.92, because battery health 80 contributes 0.2). -/
theorem scenario_counterexample :
    (estimationStep scenarioPayload none none).predictions.price_suggest ≠ 18560 ∧
    (estimationStep scenarioPayload none none).predictions.decision ≠ "repair" ∧
    (estimationStep scenarioPayload none none).condition_label ≠ "Good" := by
  have hstep : estimationStep scenarioPayload none none = specsBranch scenarioPayload := rfl
  have horq : orQ scenarioPayload.original_price 20000 = 20000 := by
    simp only [scenarioPayload]
    exact orQ_some (by norm_num)
  have hr : pyRound10 (orQ scenarioPayload.original_price 20000 * 0.4) = 8000 := by
    rw [horq]
    rw [pyRound10_eval (n := 800) (by norm_num)]
    norm_num
  refine ⟨?_, ?_, ?_⟩
  · rw [hstep]
    simp only [specsBranch, hr]
    norm_num
  · rw [hstep]
    simp only [specsBranch]
    decide
  · rw [hstep]
    simp only [specsBranch]
    decide

/-- C6 amended: with no vision model and no tabular model loaded, the
estimation pipeline answers from the `specs_rule_based` fallback branch:
price `max(500, round(20000 * 0.4, -1)) = 8000`, condition "Fair" with
confidence 0.7, RUL 24 months, decision "recycle", CO2 16 kg. The
claimed numbers describe the `demo_predictions` helper, which
`create_listing` does not call; on this payload that helper yields wear
`0.03 * 24 + (90 - 80) * 0.02 = 0.92` (the claim's 0.72 omits the battery
term), price 18160, condition "Good" with confidence 0.85, RUL 24 and
decision "repair". -/
theorem scenario_actual_values :
    estimationStep scenarioPayload none none
      = { method := "specs_rule_based", model_name := none, detections := []
          condition_label := "Fair", condition_confidence := 0.7
          predictions := { price_suggest := 8000, rul_months := 24
                           decision := "recycle", co2_saved_kg := 16 } } ∧
    demo_predictions scenarioPayload
      = { condition_label := "Good", condition_confidence := 0.85
          price_suggest := 18160, rul_months := 24, decision := "repair"
          co2_saved_kg := 36.32 } := by
  have horq : orQ scenarioPayload.original_price 20000 = 20000 := by
    simp only [scenarioPayload]
    exact orQ_some (by norm_num)
  have hage : orQ scenarioPayload.age_months 24 = 24 := by
    simp only [scenarioPayload]
    exact orQ_some (by norm_num)
  have hbat : orQ scenarioPayload.battery_health 80 = 80 := by
    simp only [scenarioPayload]
    exact orQ_some (by norm_num)
  constructor
  · have hstep : estimationStep scenarioPayload none none = specsBranch scenarioPayload := rfl
    rw [hstep]
    have hr : pyRound10 (orQ scenarioPayload.original_price 20000 * 0.4) = 8000 := by
      rw [horq]
      rw [pyRound10_eval (n := 800) (by norm_num)]
      norm_num
    have hprice : max 500 (pyRound10 (orQ scenarioPayload.original_price 20000 * 0.4)) = 8000 := by
      rw [hr]
      norm_num
    have hco2 : pyRound2 (((8000 : ℤ) : ℚ) / 20000 * 40) = 16 := by
      rw [pyRound2_eval (m := 1600) (by push_cast; norm_num)]
      norm_num
    simp only [specsBranch, hprice, hco2]
  · have hA : pyRound10 ((18160 : ℚ)) = 18160 := by
      rw [pyRound10_eval (show (18160 : ℚ) = ((10 * 1816 : ℤ) : ℚ) by push_cast; norm_num)]
      norm_num
    have hB : pyTrunc ((24 : ℚ)) = 24 := by
      rw [show (24 : ℚ) = ((24 : ℤ) : ℚ) by norm_num]
      exact pyTrunc_intCast 24
    have hC : pyRound2 ((908 : ℚ) / 25) = 908 / 25 := by
      rw [pyRound2_eval (show (908 : ℚ) / 25 * 100 = ((3632 : ℤ) : ℚ) by push_cast; norm_num)]
      norm_num
    simp only [demo_predictions, scenarioPayload]
    norm_num [hA, hB, hC, orQ]

/-!
Claim C4 — KYC redaction of contact_phone.
-/

/-- The intent filter only removes partners. -/
theorem filterByIntent_subset (intent : Option String) (partners : List Partner) :
    filterByIntent intent partners ⊆ partners := by
  unfold filterByIntent
  split
  · exact fun x hx => List.mem_of_mem_filter hx
  · exact fun x hx => List.mem_of_mem_filter hx
  · exact fun x hx => hx

/-- C4 counterexample: one unverified partner (`kyc_status = "submitted"`)
with a stored phone, queried without caller coordinates — the branch of
`get_nearby_partners` for missing coordinates (lines 1059-1073) copies
`contact_phone` without any KYC check, so the response exposes the
phone, contradicting the claim that redaction covers lookups without
caller coordinates. -/
theorem contact_phone_leak_counterexample :
    get_nearby_partners (fun _ _ _ _ => 0)
        [⟨1, "Org", "repair", none, some 0, some 0, some 10, some "12345", "submitted"⟩]
        none none none 10
      = [⟨1, "Org", "repair", none, some 0, some 0, none, some "12345"⟩] ∧
    ("submitted" : String) ≠ "verified" := by
  exact ⟨rfl, by decide⟩

/-- C4 amended: in the branch with caller coordinates, any exposed phone
belongs to a partner whose `kyc_status` is "verified" (equivalently:
every non-verified partner's entry carries a null `contact_phone`); in
the branch without caller coordinates, the stored phone is returned
as-is with no KYC redaction. -/
theorem contact_phone_redaction (hav : ℚ → ℚ → ℚ → ℚ → ℚ) (partners : List Partner)
    (la lo : ℚ) (intent : Option String) (k : ℕ) :
    (∀ e ∈ get_nearby_partners hav partners (some la) (some lo) intent k,
      e.contact_phone ≠ none →
      ∃ p ∈ partners, p.id = e.id ∧ p.kyc_status = "verified" ∧
        e.contact_phone = p.contact_phone) ∧
    (∀ e ∈ get_nearby_partners hav partners none none intent k,
      ∃ p ∈ partners, p.id = e.id ∧ e.contact_phone = p.contact_phone) := by
  constructor
  · intro e he hph
    have he1 : e ∈ nearbyEntries hav la lo (filterByIntent intent partners) :=
      List.mem_mergeSort.mp (List.take_subset _ _ he)
    obtain ⟨p, hp, hfp⟩ := List.mem_filterMap.mp he1
    have hpp : p ∈ partners := filterByIntent_subset intent partners hp
    have hep : e = entryGeo hav la lo p := by
      rcases hd : distOf hav la lo p with _ | d <;>
        rcases hr : p.service_radius_km with _ | r <;>
        rw [hd, hr] at hfp <;> simp at hfp
      · exact hfp.symm
      · exact hfp.symm
      · exact hfp.symm
      · rcases hfp with ⟨hcond, hsome⟩
        exact hsome.symm
    subst hep
    by_cases hk : p.kyc_status = "verified"
    · exact ⟨p, hpp, rfl, hk, by simp [entryGeo, hk]⟩
    · exfalso
      apply hph
      simp [entryGeo, hk]
  · intro e he
    have he1 : e ∈ (filterByIntent intent partners).map entryNoGeo :=
      List.take_subset _ _ he
    obtain ⟨p, hp, hep⟩ := List.mem_map.mp he1
    exact ⟨p, filterByIntent_subset intent partners hp, by rw [← hep]; rfl,
      by rw [← hep]; rfl⟩

/-- A verified partner used to witness the redaction theorem. -/
def verifiedPartner : Partner :=
  ⟨2, "V", "repair", none, some 0, some 0, some 10, some "777", "verified"⟩

/-- C4 amended, witnessed: the verified partner's entry may expose its
phone, and the theorem traces it back to a verified partner. -/
theorem contact_phone_redaction_witness :
    ∃ p ∈ [verifiedPartner],
      p.id = (⟨2, "V", "repair", none, some 0, some 0, some 1, some "777"⟩ : PartnerOut).id ∧
      p.kyc_status = "verified" ∧
      (⟨2, "V", "repair", none, some 0, some 0, some 1, some "777"⟩ : PartnerOut).contact_phone
        = p.contact_phone := by
  have hout : get_nearby_partners (fun _ _ _ _ => 1) [verifiedPartner] (some 0) (some 0) none 1
      = [⟨2, "V", "repair", none, some 0, some 0, some 1, some "777"⟩] := by
    show ((nearbyEntries (fun _ _ _ _ => 1) 0 0
        (filterByIntent none [verifiedPartner])).mergeSort keyLe).take 1
      = [⟨2, "V", "repair", none, some 0, some 0, some 1, some "777"⟩]
    rw [show filterByIntent none [verifiedPartner] = [verifiedPartner] from rfl]
    rw [show nearbyEntries (fun _ _ _ _ => (1 : ℚ)) 0 0 [verifiedPartner]
        = [⟨2, "V", "repair", none, some 0, some 0, some 1, some "777"⟩] from by decide]
    rw [List.mergeSort_singleton]
    rfl
  exact (contact_phone_redaction (fun _ _ _ _ => 1) [verifiedPartner] 0 0 none 1).1
    ⟨2, "V", "repair", none, some 0, some 0, some 1, some "777"⟩
    (by rw [hout]; exact List.mem_singleton.mpr rfl) (by simp)

/-!
Claim C7 — geospatial ranking.
-/

/-- The sort comparator is transitive. -/
theorem keyLe_trans (a b c : PartnerOut) (hab : keyLe a b = true) (hbc : keyLe b c = true) :
    keyLe a c = true := by
  unfold keyLe at *
  cases ha : (sortKey a).1 <;> cases hb : (sortKey b).1 <;> cases hc : (sortKey c).1 <;>
    simp [ha, hb, hc] at * <;>
    try exact le_trans hab hbc

/-- The sort comparator is total. -/
theorem keyLe_total (a b : PartnerOut) : (keyLe a b || keyLe b a) = true := by
  unfold keyLe
  cases ha : (sortKey a).1 <;> cases hb : (sortKey b).1 <;> simp [ha, hb] <;>
    exact le_total _ _

/-- Entries with equal sort keys compare `≤` in both directions. -/
theorem keyLe_of_sortKey_eq {a b : PartnerOut} (h : sortKey a = sortKey b) :
    keyLe a b = true := by
  unfold keyLe
  rw [h]
  cases hb : (sortKey b).1 <;> simp [hb]

/-- C7: with caller coordinates, the nearby-partner result is the
distance-sorted, radius-filtered candidate list truncated to
`max_results`; concretely: (truncation) the result is a prefix of the
stable sort and no longer than `max_results`; (exclusion) a partner
whose distance from the query point exceeds its own service radius
contributes no entry, whatever its global proximity; (ordering) the
result is sorted by the key "unknown distances last, otherwise ascending
distance", so of two entries with known distances `d1 < d2` the first
appears earlier, and every unknown-distance entry comes after all
known-distance entries; (stability) candidates with equal sort keys keep
their original query order in the sorted list. -/
theorem nearby_geo_ranking (hav : ℚ → ℚ → ℚ → ℚ → ℚ) (partners : List Partner)
    (la lo : ℚ) (intent : Option String) (k : ℕ) :
    get_nearby_partners hav partners (some la) (some lo) intent k
      = ((nearbyEntries hav la lo (filterByIntent intent partners)).mergeSort keyLe).take k ∧
    (get_nearby_partners hav partners (some la) (some lo) intent k).length ≤ k ∧
    ((partners.map (fun p => p.id)).Nodup →
      ∀ p ∈ partners, ∀ plat plon r, p.lat = some plat → p.lon = some plon →
        p.service_radius_km = some r → r < hav la lo plat plon →
        ∀ e ∈ get_nearby_partners hav partners (some la) (some lo) intent k,
          e.id ≠ p.id) ∧
    (get_nearby_partners hav partners (some la) (some lo) intent k).Pairwise
      (fun a b => keyLe a b = true) ∧
    (∀ (i j : Fin (get_nearby_partners hav partners (some la) (some lo) intent k).length)
        (d1 d2 : ℚ),
      ((get_nearby_partners hav partners (some la) (some lo) intent k).get i).distance_km
          = some d1 →
      ((get_nearby_partners hav partners (some la) (some lo) intent k).get j).distance_km
          = some d2 →
      d1 < d2 → (i : ℕ) < (j : ℕ)) ∧
    (∀ (i j : Fin (get_nearby_partners hav partners (some la) (some lo) intent k).length)
        (d2 : ℚ),
      ((get_nearby_partners hav partners (some la) (some lo) intent k).get i).distance_km
          = none →
      ((get_nearby_partners hav partners (some la) (some lo) intent k).get j).distance_km
          = some d2 →
      (j : ℕ) < (i : ℕ)) ∧
    (∀ a b, [a, b].Sublist (nearbyEntries hav la lo (filterByIntent intent partners)) →
      sortKey a = sortKey b →
      [a, b].Sublist ((nearbyEntries hav la lo (filterByIntent intent partners)).mergeSort keyLe)) := by
  have hout : get_nearby_partners hav partners (some la) (some lo) intent k
      = ((nearbyEntries hav la lo (filterByIntent intent partners)).mergeSort keyLe).take k := rfl
  have hpair : (get_nearby_partners hav partners (some la) (some lo) intent k).Pairwise
      (fun a b => keyLe a b = true) := by
    rw [hout]
    exact List.Pairwise.sublist (List.take_sublist _ _)
      (List.sorted_mergeSort keyLe_trans keyLe_total _)
  refine ⟨hout, ?_, ?_, hpair, ?_, ?_, ?_⟩
  · rw [hout]
    exact List.length_take_le _ _
  · intro hnodup p hp plat plon r hlat hlon hr hlt e he heq
    have he1 : e ∈ nearbyEntries hav la lo (filterByIntent intent partners) := by
      rw [hout] at he
      exact List.mem_mergeSort.mp (List.take_subset _ _ he)
    obtain ⟨q, hq, hfq⟩ := List.mem_filterMap.mp he1
    have hqp : q ∈ partners := filterByIntent_subset intent partners hq
    have heid : e.id = q.id := by
      rcases hd : distOf hav la lo q with _ | d <;>
        rcases hrq : q.service_radius_km with _ | rq <;>
        rw [hd, hrq] at hfq <;> simp at hfq
      · rw [← hfq]; rfl
      · rw [← hfq]; rfl
      · rw [← hfq]; rfl
      · rw [← hfq.2]; rfl
    have hqpeq : q = p := List.inj_on_of_nodup_map hnodup hqp hp (by rw [← heid, heq])
    subst hqpeq
    rw [show distOf hav la lo q = some (hav la lo plat plon) from by
        simp [distOf, hlat, hlon], hr] at hfq
    simp [hlt] at hfq
  · intro i j d1 d2 h1 h2 hlt
    by_contra hij
    push_neg at hij
    rcases lt_or_eq_of_le hij with hlt2 | heqn
    · have hk := List.pairwise_iff_get.mp hpair j i hlt2
      simp only [keyLe, sortKey, h1, h2] at hk
      simp at hk
      linarith
    · have : j = i := Fin.ext heqn
      subst this
      rw [h1] at h2
      injection h2 with h2
      subst h2
      exact lt_irrefl _ hlt
  · intro i j d2 h1 h2
    by_contra hji
    push_neg at hji
    rcases lt_or_eq_of_le hji with hlt2 | heqn
    · have hk := List.pairwise_iff_get.mp hpair i j hlt2
      simp only [keyLe, sortKey, h1, h2] at hk
      simp at hk
    · have : i = j := Fin.ext heqn
      subst this
      rw [h1] at h2
      exact Option.noConfusion h2
  · intro a b hsub hkey
    refine List.sublist_mergeSort keyLe_trans keyLe_total ?_ hsub
    refine List.pairwise_cons.mpr ⟨?_, ?_⟩
    · intro c hc
      rw [List.mem_singleton.mp hc]
      exact keyLe_of_sortKey_eq hkey
    · exact List.pairwise_singleton _ _

/-- A partner whose (constant) distance 5 is within its radius 10. -/
def partnerNear : Partner :=
  ⟨1, "Near", "repair", none, some 0, some 0, some 10, none, "verified"⟩

/-- A partner whose (constant) distance 5 exceeds its own radius 1. -/
def partnerFarLimited : Partner :=
  ⟨2, "Far", "repair", none, some 3, some 4, some 1, none, "submitted"⟩

/-- C7, witnessed with a constant distance function: the result respects
the `max_results` bound, and the partner whose distance exceeds its own
service radius contributes no entry. -/
theorem nearby_geo_ranking_witness :
    (get_nearby_partners (fun _ _ _ _ => 5) [partnerNear, partnerFarLimited]
        (some 0) (some 0) none 10).length ≤ 10 ∧
    (entryGeo (fun _ _ _ _ => 5) 0 0 partnerNear).id ≠ partnerFarLimited.id := by
  have h := nearby_geo_ranking (fun _ _ _ _ => 5) [partnerNear, partnerFarLimited] 0 0 none 10
  refine ⟨h.2.1, ?_⟩
  have hout : get_nearby_partners (fun _ _ _ _ => 5) [partnerNear, partnerFarLimited]
      (some 0) (some 0) none 10 = [entryGeo (fun _ _ _ _ => 5) 0 0 partnerNear] := by
    show ((nearbyEntries (fun _ _ _ _ => 5) 0 0
        (filterByIntent none [partnerNear, partnerFarLimited])).mergeSort keyLe).take 10
      = [entryGeo (fun _ _ _ _ => 5) 0 0 partnerNear]
    rw [show filterByIntent none [partnerNear, partnerFarLimited]
        = [partnerNear, partnerFarLimited] from rfl]
    rw [show nearbyEntries (fun _ _ _ _ => (5 : ℚ)) 0 0 [partnerNear, partnerFarLimited]
        = [entryGeo (fun _ _ _ _ => 5) 0 0 partnerNear] from by decide]
    rw [List.mergeSort_singleton]
    rfl
  exact h.2.2.1 (by decide) partnerFarLimited (by simp) 3 4 1 rfl rfl rfl (by decide)
    (entryGeo (fun _ _ _ _ => 5) 0 0 partnerNear)
    (by rw [hout]; exact List.mem_singleton.mpr rfl)

/-!
Claim C2, revisited: the main embedding's ℚ values cover exactly the
finite floats, but `safe_float` (lines 999-1010) parses the form strings
"inf", "-inf" and "nan" via Python's `float()`, so non-finite values can
reach the estimation step. The following float model makes that path
expressible for the one conversion the rule-based fallback performs with
no enclosing handler: `int(...)` at line 1784.
-/

/-- A Python float for the overflow analysis: a finite value (exact
rational) or one of the non-finite IEEE values. -/
inductive PyFloat where
  | fin (q : ℚ)
  | inf
  | ninf
  | nan
deriving DecidableEq

/-- IEEE float multiplication: finite times finite is exact here, an
infinite factor propagates by the sign of the other factor, `0 * inf`
and any nan operand give nan. -/
def pyMulF : PyFloat → PyFloat → PyFloat
  | .fin a, .fin b => .fin (a * b)
  | .fin a, .inf => if 0 < a then .inf else if a < 0 then .ninf else .nan
  | .inf, .fin b => if 0 < b then .inf else if b < 0 then .ninf else .nan
  | .fin a, .ninf => if 0 < a then .ninf else if a < 0 then .inf else .nan
  | .ninf, .fin b => if 0 < b then .ninf else if b < 0 then .inf else .nan
  | .inf, .inf => .inf
  | .inf, .ninf => .ninf
  | .ninf, .inf => .ninf
  | .ninf, .ninf => .inf
  | .nan, _ => .nan
  | _, .nan => .nan

/-- Python `round(x, -1)` on floats: non-finite values pass through
unchanged (`round(inf, -1)` is `inf`, not an error). -/
def pyRound10F : PyFloat → PyFloat
  | .fin q => .fin ((pyRound10 q : ℤ) : ℚ)
  | .inf => .inf
  | .ninf => .ninf
  | .nan => .nan

/-- IEEE strict greater-than: any comparison with nan is false. -/
def pyGtF : PyFloat → PyFloat → Bool
  | .fin a, .fin b => decide (b < a)
  | .inf, .fin _ => true
  | .inf, .ninf => true
  | .fin _, .ninf => true
  | .inf, .inf => false
  | .ninf, .ninf => false
  | .ninf, _ => false
  | _, .inf => false
  | .nan, _ => false
  | _, .nan => false

/-- Python `max(a, b)`: `b` when `b > a`, else `a`. -/
def pyMaxF (a b : PyFloat) : PyFloat :=
  if pyGtF b a then b else a

/-- Python `int(x)` on a float: truncation toward zero on finite values;
an infinite argument raises OverflowError and nan raises ValueError —
neither is caught anywhere in the specs fallback branch. -/
def pyIntF : PyFloat → Except String ℤ
  | .fin q => .ok (pyTrunc q)
  | .inf => .error "OverflowError"
  | .ninf => .error "OverflowError"
  | .nan => .error "ValueError"

/-- Python `value or 20000` on an optional float: `None` and `0.0` are
falsy; every non-finite value (nan included) is truthy. -/
def orF (x : Option PyFloat) (d : ℚ) : PyFloat :=
  match x with
  | none => .fin d
  | some (.fin v) => if v = 0 then .fin d else .fin v
  | some v => v

/-- The price computation of the specs fallback branch (line 1784),
`int(max(500, round((payload.get("original_price") or 20000) * 0.4, -1)))`,
over the float model. -/
def specs_price_float (original_price : Option PyFloat) : Except String ℤ :=
  pyIntF (pyMaxF (.fin 500) (pyRound10F (pyMulF (orF original_price 20000) (.fin 0.4))))

/-- On every finite original price the float model agrees with the ℚ
embedding: `specs_price_float` returns exactly the `price_suggest` that
`specsBranch` computes, so the main embedding is faithful on the finite
domain. -/
theorem specs_price_float_finite (v : ℚ) :
    specs_price_float (some (.fin v))
      = .ok (max 500 (pyRound10 (orQ (some v) 20000 * 0.4))) := by
  have key : ∀ w : ℚ,
      pyIntF (pyMaxF (.fin 500) (pyRound10F (pyMulF (.fin w) (.fin 0.4))))
        = .ok (max 500 (pyRound10 (w * 0.4))) := by
    intro w
    simp only [pyMulF, pyRound10F, pyMaxF, pyGtF]
    rcases lt_or_le (500 : ℤ) (pyRound10 (w * 0.4)) with h | h
    · rw [if_pos (by rw [decide_eq_true_eq]; exact_mod_cast h)]
      simp only [pyIntF, pyTrunc_intCast]
      rw [max_eq_right (le_of_lt h)]
    · rw [if_neg (by rw [decide_eq_true_eq]; push_neg; exact_mod_cast h)]
      simp only [pyIntF]
      rw [show ((500 : ℚ)) = ((500 : ℤ) : ℚ) by norm_num, pyTrunc_intCast, max_eq_left h]
  by_cases hv : v = 0
  · simp only [specs_price_float, orF, orQ, hv, if_pos]
    exact key 20000
  · simp only [specs_price_float, orF, orQ, if_neg hv]
    exact key v

/-- C2 counterexample: the form field `original_price = "inf"` is
accepted by `safe_float` (lines 999-1010, `float("inf")` parses), and
with no models loaded the estimation step reaches the specs fallback
whose price computation at line 1784 is then
`int(max(500, round(inf * 0.4, -1))) = int(inf)`, raising an unhandled
OverflowError — so the rule-based tier is not a total computation and
the estimation step can raise to the caller, contradicting the claim. -/
theorem estimation_overflow_counterexample :
    specs_price_float (some .inf) = .error "OverflowError" := by
  simp [specs_price_float, orF, pyMulF, pyRound10F, pyMaxF, pyGtF, pyIntF,
    show (0 : ℚ) < 0.4 by norm_num]
